import Mathlib

/-!
Verification development for the RadeonRays `Intersector` contract
(`src/RadeonRays/src/intersector/intersector.h`).

The repository excerpt contains only the interface header: the bodies of the
public query methods, `SetWorld` and `IsCompatible` live in `intersector.cpp`,
which is absent from the excerpt, and the backend entry points `Intersect` /
`Occluded` are pure virtual.  Definitions below that embed those missing bodies
are modelled from the specification and carry a doc comment starting with
`Modelled from the spec:`.  The default empty bodies of the two specialized
reduction virtuals `Occluded2dSumLinear2` (header lines 165-169) and
`Occluded2dCellString` (header lines 176-186) ARE present in the header and are
embedded directly from that source text.

Machine integers (`std::uint32_t` ray counts, queue indices) are modelled as
`Nat`: counts are only compared and clamped, never overflowed.  Geometric data
(`float` ray origins, directions, intervals, hit distances) is modelled over
`ℤ`, with a primitive hit exactly when the ray reaches its position at an
integral parameter; the concrete primitive geometry, record layout and numeric
tie-break rules are placed outside the contract by the spec (sections 1, 6 and
the non-goals), so any computable geometry with closest-hit/any-hit semantics
is a faithful instance.
-/

namespace RadeonRays

/-- Modelled from the spec: the `World` "exposes a predicate surface sufficient
for `IsCompatible` (enumerable shape-kind membership)" (spec section 6).  The
shape kinds themselves are opaque to the contract; a small enumeration stands
for them. -/
inductive ShapeKind
  | mesh
  | instanceShape
  | curve
  | custom
  deriving DecidableEq, Repr

/-- Ray record (spec section 3): origin, direction, valid interval
[t-min, t-max].  The geometry is one-dimensional in the model: the concrete
record layout is a backend-level contract outside this interface. -/
structure Ray where
  origin : ℤ
  dir : ℤ
  tmin : ℤ
  tmax : ℤ
  deriving DecidableEq, Repr

/-- Hit record (spec section 3): shape identifier, primitive identifier,
parametric coordinate and hit distance.  A full intersection result per ray is
`Option Hit`, with `none` the explicit no-hit sentinel. -/
structure Hit where
  shapeId : Nat
  primId : Nat
  uv : ℤ
  dist : ℤ
  deriving DecidableEq, Repr

/-- A primitive of the scene: shape identifier, primitive identifier, and its
position along the (one-dimensional) ray parameterization. -/
structure Prim where
  shapeId : Nat
  primId : Nat
  pos : ℤ
  deriving DecidableEq, Repr

/-- Modelled from the spec: a `World` is "opaque; exposes only the information
needed for a compatibility predicate (e.g., which shape primitive kinds it
contains)" (spec section 3), plus the primitives the queries intersect
against. -/
structure World where
  shapeKinds : List ShapeKind
  prims : List Prim
  deriving DecidableEq, Repr

/-- The fully built acceleration structure produced by preprocessing
(spec section 4.1): queries traverse this, never the raw `World`. -/
structure Accel where
  prims : List Prim
  deriving DecidableEq, Repr

/-- Modelled from the spec: `SetWorld` performs the acceleration-structure
build (spec section 4.1).  The build is a total function of the world. -/
def buildAccel (w : World) : Accel :=
  ⟨w.prims⟩

/-- Distance at which ray `r` meets primitive `p`, when that distance lies in
the ray's valid interval [t-min, t-max]; `none` otherwise. -/
def rayDist (r : Ray) (p : Prim) : Option ℤ :=
  if r.dir = 0 then none
  else if (p.pos - r.origin) % r.dir = 0
      ∧ r.tmin ≤ (p.pos - r.origin) / r.dir ∧ (p.pos - r.origin) / r.dir ≤ r.tmax then
    some ((p.pos - r.origin) / r.dir)
  else none

/-- All intersection hits of ray `r` against the built structure, within the
ray's valid interval. -/
def rayHits (a : Accel) (r : Ray) : List Hit :=
  a.prims.filterMap fun p => (rayDist r p).map fun t => ⟨p.shapeId, p.primId, t, t⟩

/-- Keep the closer of the hit accumulated so far and a newly found hit. -/
def closerHit (acc : Option Hit) (h : Hit) : Option Hit :=
  match acc with
  | none => some h
  | some b => if h.dist < b.dist then some h else some b

/-- The full-detail intersection result for one ray: the closest hit within
[t-min, t-max], or the `none` no-hit sentinel (spec section 4.2,
"Intersection"). -/
def closestHit (a : Accel) (r : Ray) : Option Hit :=
  (rayHits a r).foldl closerHit none

/-- The occlusion result for one ray: whether any primitive occludes it within
[t-min, t-max].  Backends early-terminate on the first occluder, so only the
existence of a hit matters (spec section 4.2, "Occlusion"). -/
def occludedRay (a : Accel) (r : Ray) : Bool :=
  a.prims.any fun p => (rayDist r p).isSome

/-- Placeholder ray used to read past the end of a ray buffer; the contract
requires the ray buffer to hold at least the processed count, so this value is
never observable under the caller contract. -/
def defaultRay : Ray :=
  ⟨0, 1, 0, 0⟩

/-- Write the slots of a buffer: slot `i` of the result is `f (k + i)` applied
to the old slot content.  `k` is the index of the first slot. -/
def writeFrom {α : Type} (f : Nat → α → α) : Nat → List α → List α
  | _, [] => []
  | k, a :: as => f k a :: writeFrom f (k + 1) as

theorem writeFrom_length {α : Type} (f : Nat → α → α) (k : Nat) (l : List α) :
    (writeFrom f k l).length = l.length := by
  induction l generalizing k with
  | nil => rfl
  | cons a as ih => simp [writeFrom, ih]

theorem writeFrom_getD {α : Type} (f : Nat → α → α) (k i : Nat) (l : List α) (d : α) :
    (writeFrom f k l).getD i d = if i < l.length then f (k + i) (l.getD i d) else d := by
  induction l generalizing k i with
  | nil => simp [writeFrom]
  | cons a as ih =>
    cases i with
    | zero => simp [writeFrom]
    | succ j =>
      simp only [writeFrom, List.getD_cons_succ, List.length_cons, ih (k + 1) j,
        Nat.succ_lt_succ_iff]
      have hk : k + 1 + j = (k + j).succ := by omega
      have hk2 : k + (j + 1) = (k + j).succ := by omega
      rw [hk, hk2]

/-- Error taxonomy of the contract (spec section 7). -/
inductive RRError
  | incompatibleWorld
  | notPreprocessed
  | invalidArgument
  | unsupportedOperation
  | deviceFailure
  deriving DecidableEq, Repr

/-- Completion event as the caller observes it at the moment the query call
returns: `signaled = true` means the event is already signaled at return (the
zero-ray no-op case); `signaled = false` means device work was enqueued and the
event signals later (spec sections 4.2 and 7). -/
structure Event where
  signaled : Bool
  deriving DecidableEq, Repr

/-- State of one `Intersector` instance: the built acceleration structure for
the currently bound world (`none` before `SetWorld`), and the three
device-resident scratch counter buffers the instance exclusively owns
(`m_counter`, `m_counter2`, `m_counter3`, header lines 192-194, commented
"Buffer holding ray count").  Each counter buffer holds one ray count. -/
structure IntersectorState where
  accel : Option Accel
  m_counter : Nat
  m_counter2 : Nat
  m_counter3 : Nat
  deriving DecidableEq, Repr

/-- Modelled from the spec: `SetWorld` (header line 72, body in the absent
`intersector.cpp`) builds all acceleration structures synchronously and
atomically replaces any previously bound world before returning
(spec section 4.1). -/
def SetWorld (s : IntersectorState) (w : World) : IntersectorState :=
  { s with accel := some (buildAccel w) }

/-- Modelled from the spec: the backend compatibility predicate
`IsCompatibleImpl` (header line 155, virtual, body absent) checks that every
shape kind the world contains is one the concrete backend can accelerate
(spec sections 4.1 and 6).  `supported` is the concrete backend's
shape-support predicate. -/
def IsCompatibleImpl (supported : ShapeKind → Bool) (w : World) : Bool :=
  w.shapeKinds.all supported

/-- Modelled from the spec: the public `IsCompatible` (header line 65, const,
body absent) is pure: it returns the compatibility verdict and leaves the
instance state untouched (spec section 3, invariant (b), and section 8). -/
def IsCompatible (supported : ShapeKind → Bool) (s : IntersectorState) (w : World) :
    Bool × IntersectorState :=
  (IsCompatibleImpl supported w, s)

/-- The number of rays a device-resident-count dispatch processes: the value
read from the resident count buffer, defensively clamped to the host-supplied
`max_rays` bound (spec section 4.2, "Device-resident count"). -/
def processedRayCount (residentCount maxRays : Nat) : Nat :=
  min residentCount maxRays

/-- Modelled from the spec: the pure-virtual backend entry point `Intersect`
(header lines 157-159).  It reads the ray count from the device-resident count
buffer, clamps it to `max_rays`, and writes one full-detail hit record
(`closestHit`, with `none` the no-hit sentinel) per processed ray into the
hits buffer, leaving every other slot untouched (spec sections 4.2). -/
def Intersect (a : Accel) (rays : List Ray) (residentCount maxRays : Nat)
    (hits : List (Option Hit)) : List (Option Hit) :=
  writeFrom
    (fun i old =>
      if i < processedRayCount residentCount maxRays then closestHit a (rays.getD i defaultRay)
      else old)
    0 hits

/-- Modelled from the spec: the pure-virtual backend entry point `Occluded`
(header lines 161-163): like `Intersect` but writes one boolean-equivalent
occlusion record (`occludedRay`) per processed ray (spec section 4.2). -/
def Occluded (a : Accel) (rays : List Ray) (residentCount maxRays : Nat)
    (hits : List Bool) : List Bool :=
  writeFrom
    (fun i old =>
      if i < processedRayCount residentCount maxRays then occludedRay a (rays.getD i defaultRay)
      else old)
    0 hits

/-- Modelled from the spec: the device-resident-count public overload
`QueryIntersection` (header lines 128-129, body absent).  Querying before
`SetWorld` is the `NotPreprocessed` error; a zero resident count or zero
`max_rays` is a legal no-op returning an already-signaled event with no writes
(spec sections 4.2 and 7); otherwise the backend `Intersect` entry point runs
and the completion event signals later.  `residentCount` is the value stored
in the `num_rays` count buffer. -/
def QueryIntersectionResident (s : IntersectorState) (rays : List Ray)
    (residentCount maxRays : Nat) (hits : List (Option Hit)) :
    Except RRError (List (Option Hit) × Event) :=
  match s.accel with
  | none => .error .notPreprocessed
  | some a =>
    if residentCount = 0 ∨ maxRays = 0 then .ok (hits, ⟨true⟩)
    else .ok (Intersect a rays residentCount maxRays hits, ⟨false⟩)

/-- Modelled from the spec: the device-resident-count public overload
`QueryOcclusion` (header lines 144-145, body absent); see
`QueryIntersectionResident`. -/
def QueryOcclusionResident (s : IntersectorState) (rays : List Ray)
    (residentCount maxRays : Nat) (hits : List Bool) :
    Except RRError (List Bool × Event) :=
  match s.accel with
  | none => .error .notPreprocessed
  | some a =>
    if residentCount = 0 ∨ maxRays = 0 then .ok (hits, ⟨true⟩)
    else .ok (Occluded a rays residentCount maxRays hits, ⟨false⟩)

/-- Modelled from the spec: the fixed-count public overload
`QueryIntersection` (header lines 87-88, body absent).  The instance owns
scratch counter buffers "used to hold ray counts" (spec section 3, header
comment at line 191): the host count `num_rays` is staged into `m_counter` and
the single device-resident-count entry point is invoked with that counter
buffer and `max_rays = num_rays`.  Returns the call result together with the
instance state after the staging write. -/
def QueryIntersectionFixed (s : IntersectorState) (rays : List Ray) (num_rays : Nat)
    (hits : List (Option Hit)) :
    Except RRError (List (Option Hit) × Event) × IntersectorState :=
  let s2 := { s with m_counter := num_rays }
  (QueryIntersectionResident s2 rays s2.m_counter num_rays hits, s2)

/-- Modelled from the spec: the fixed-count public overload `QueryOcclusion`
(header lines 103-104, body absent); the host count is staged into the
`m_counter2` scratch buffer and the device-resident-count entry point is
invoked.  See `QueryIntersectionFixed`. -/
def QueryOcclusionFixed (s : IntersectorState) (rays : List Ray) (num_rays : Nat)
    (hits : List Bool) :
    Except RRError (List Bool × Event) × IntersectorState :=
  let s2 := { s with m_counter2 := num_rays }
  (QueryOcclusionResident s2 rays s2.m_counter2 num_rays hits, s2)

/-- Outcome of a call to one of the specialized reduction virtuals as the
caller observes it: the hits buffer after the call (per-origin or
per-cell-string aggregate values), what the call assigned to the out `event`
pointer (`none` = left unassigned), and the error it reported (`none` = no
error reported). -/
structure SpecializedCallOutcome where
  hits : List ℤ
  outEvent : Option Event
  err : Option RRError
  deriving DecidableEq, Repr

/-- Embedded from the source: the default body of the virtual
`Occluded2dSumLinear2` (header lines 165-169) is empty (`{}`): the call
returns without writing the hits buffer, without assigning the out event, and
without reporting any error. -/
def Occluded2dSumLinear2Default (hits : List ℤ) : SpecializedCallOutcome :=
  ⟨hits, none, none⟩

/-- Embedded from the source: the default body of the virtual
`Occluded2dCellString` (header lines 176-186) is empty (`{}`), exactly like
`Occluded2dSumLinear2Default`. -/
def Occluded2dCellStringDefault (hits : List ℤ) : SpecializedCallOutcome :=
  ⟨hits, none, none⟩

/-- Modelled from the spec: one enqueued device-side operation in the mock
device abstraction the spec proposes for the ordering property
(spec section 8: "testable via a mock device abstraction recording dispatch
timestamps").  `waitOn` is the `opid` of the operation whose completion event
is passed as this call's `wait_event` (`none` for a null `wait_event`);
`cost` is the device time the work takes. -/
structure DeviceOp where
  opid : Nat
  queue : Nat
  waitOn : Option Nat
  cost : Nat
  deriving DecidableEq, Repr

/-- Timestamps the mock device records for one operation: when its device work
was dispatched (started) and when its completion event signaled. -/
structure OpTiming where
  opid : Nat
  queue : Nat
  dispatched : Nat
  signaled : Nat
  deriving DecidableEq, Repr

/-- Signal time the trace records for the completion event of operation
`i` (0 when no operation with that id has run). -/
def signalTimeOf (trace : List OpTiming) (i : Nat) : Nat :=
  match trace.find? (fun t => t.opid == i) with
  | none => 0
  | some t => t.signaled

/-- Earliest time device queue `q` is free, given the recorded trace. -/
def queueFreeTime (trace : List OpTiming) (q : Nat) : Nat :=
  trace.foldl (fun m t => if t.queue = q then max m t.signaled else m) 0

/-- Earliest time the `wait_event` precondition of an operation is satisfied:
immediately for a null `wait_event`, otherwise the recorded signal time of the
waited-on operation's completion event. -/
def waitReadyTime (trace : List OpTiming) : Option Nat → Nat
  | none => 0
  | some i => signalTimeOf trace i

/-- Dispatch time the mock device assigns to `op`: device work starts no
earlier than its queue is free and no earlier than its `wait_event` signals
(spec section 4.2: the wait event "must be satisfied before any device-side
work for this call begins"). -/
def dispatchTimeFor (trace : List OpTiming) (op : DeviceOp) : Nat :=
  max (queueFreeTime trace op.queue) (waitReadyTime trace op.waitOn)

/-- The mock device: runs the submitted operations in submission order,
recording dispatch and signal timestamps for each. -/
def runOps (trace : List OpTiming) : List DeviceOp → List OpTiming
  | [] => trace
  | op :: rest =>
    let st := dispatchTimeFor trace op
    runOps (trace ++ [⟨op.opid, op.queue, st, st + op.cost⟩]) rest

theorem runOps_append (trace : List OpTiming) (xs ys : List DeviceOp) :
    runOps trace (xs ++ ys) = runOps (runOps trace xs) ys := by
  induction xs generalizing trace with
  | nil => rfl
  | cons op rest ih => simp [runOps, ih]

theorem writeFrom_getD_frozen {α : Type} (g : Nat → α) (c : Nat) (l : List α) (d : α)
    (i : Nat) (hi : ¬ i < c) :
    (writeFrom (fun j old => if j < c then g j else old) 0 l).getD i d = l.getD i d := by
  rw [writeFrom_getD]
  by_cases h : i < l.length
  · simp [h, hi]
  · rw [if_neg h, List.getD_eq_default _ _ (Nat.not_lt.mp h)]

theorem Intersect_length (a : Accel) (rays : List Ray) (residentCount maxRays : Nat)
    (hits : List (Option Hit)) :
    (Intersect a rays residentCount maxRays hits).length = hits.length := by
  simp only [Intersect]
  exact writeFrom_length _ _ _

theorem Occluded_length (a : Accel) (rays : List Ray) (residentCount maxRays : Nat)
    (hits : List Bool) :
    (Occluded a rays residentCount maxRays hits).length = hits.length := by
  simp only [Occluded]
  exact writeFrom_length _ _ _

theorem Intersect_getD_untouched (a : Accel) (rays : List Ray)
    (residentCount maxRays i : Nat) (hits : List (Option Hit)) (hi : maxRays ≤ i) :
    (Intersect a rays residentCount maxRays hits).getD i none = hits.getD i none := by
  have hnc : ¬ i < processedRayCount residentCount maxRays :=
    Nat.not_lt.mpr (le_trans (Nat.min_le_right _ _) hi)
  simp only [Intersect]
  exact writeFrom_getD_frozen _ _ hits none i hnc

theorem Occluded_getD_untouched (a : Accel) (rays : List Ray)
    (residentCount maxRays i : Nat) (hits : List Bool) (hi : maxRays ≤ i) :
    (Occluded a rays residentCount maxRays hits).getD i false = hits.getD i false := by
  have hnc : ¬ i < processedRayCount residentCount maxRays :=
    Nat.not_lt.mpr (le_trans (Nat.min_le_right _ _) hi)
  simp only [Occluded]
  exact writeFrom_getD_frozen _ _ hits false i hnc

theorem rayDist_range (r : Ray) (p : Prim) (t : ℤ) (h : rayDist r p = some t) :
    r.tmin ≤ t ∧ t ≤ r.tmax := by
  simp only [rayDist] at h
  split at h
  · exact Option.noConfusion h
  · split at h
    · rename_i hcond
      injection h with ht
      subst ht
      exact ⟨hcond.2.1, hcond.2.2⟩
    · exact Option.noConfusion h

theorem rayHits_dist_range (a : Accel) (r : Ray) (h : Hit) (hm : h ∈ rayHits a r) :
    r.tmin ≤ h.dist ∧ h.dist ≤ r.tmax := by
  rw [rayHits] at hm
  obtain ⟨p, hp, hfp⟩ := List.mem_filterMap.mp hm
  cases hrd : rayDist r p with
  | none =>
    rw [hrd] at hfp
    exact Option.noConfusion hfp
  | some t =>
    rw [hrd] at hfp
    simp only [Option.map_some'] at hfp
    injection hfp with hh
    subst hh
    exact rayDist_range r p t hrd

theorem occludedRay_iff_rayHits_ne_nil (a : Accel) (r : Ray) :
    occludedRay a r = true ↔ rayHits a r ≠ [] := by
  rw [occludedRay, List.any_eq_true]
  constructor
  · rintro ⟨p, hp, hsome⟩ hnil
    rw [rayHits, List.filterMap_eq_nil_iff] at hnil
    have h0 := hnil p hp
    rw [Option.map_eq_none'] at h0
    rw [h0] at hsome
    exact Bool.noConfusion hsome
  · intro hne
    by_contra hno
    push_neg at hno
    apply hne
    rw [rayHits, List.filterMap_eq_nil_iff]
    intro p hp
    rw [Option.map_eq_none']
    cases hrd : rayDist r p with
    | none => rfl
    | some t =>
      have hs := hno p hp
      rw [hrd] at hs
      exact absurd rfl hs

theorem closerHit_foldl_isSome (l : List Hit) (b : Hit) :
    (l.foldl closerHit (some b)).isSome = true := by
  induction l generalizing b with
  | nil => rfl
  | cons h t ih =>
    simp only [List.foldl, closerHit]
    by_cases hd : h.dist < b.dist <;> simp [hd, ih]

theorem closestHit_isSome_eq_occludedRay (a : Accel) (r : Ray) :
    (closestHit a r).isSome = occludedRay a r := by
  rw [closestHit]
  cases hhits : rayHits a r with
  | nil =>
    cases hocc : occludedRay a r with
    | false => rfl
    | true => exact absurd hhits ((occludedRay_iff_rayHits_ne_nil a r).mp hocc)
  | cons h t =>
    have hocc : occludedRay a r = true :=
      (occludedRay_iff_rayHits_ne_nil a r).mpr (by rw [hhits]; simp)
    rw [hocc]
    simp only [List.foldl, closerHit]
    exact closerHit_foldl_isSome t h

/-- Claim C2: whatever value the device-resident count buffer holds, a
device-resident-count query processes at most `max_rays` rays and never
writes a hits-buffer slot at index `max_rays` or beyond: every such slot
keeps its previous content and the buffer length is unchanged, for both the
intersection and the occlusion variant. -/
theorem device_resident_count_is_clamped (s : IntersectorState) (rays : List Ray)
    (residentCount maxRays i : Nat) (hitsI hitsI2 : List (Option Hit))
    (hitsO hitsO2 : List Bool) (evI evO : Event)
    (hI : QueryIntersectionResident s rays residentCount maxRays hitsI
        = Except.ok (hitsI2, evI))
    (hO : QueryOcclusionResident s rays residentCount maxRays hitsO
        = Except.ok (hitsO2, evO))
    (hi : maxRays ≤ i) :
    processedRayCount residentCount maxRays ≤ maxRays
    ∧ hitsI2.length = hitsI.length
    ∧ hitsI2.getD i none = hitsI.getD i none
    ∧ hitsO2.length = hitsO.length
    ∧ hitsO2.getD i false = hitsO.getD i false := by
  refine ⟨Nat.min_le_right _ _, ?_⟩
  obtain ⟨acc, c1, c2, c3⟩ := s
  cases acc with
  | none =>
    simp only [QueryIntersectionResident] at hI
    exact Except.noConfusion hI
  | some a =>
    simp only [QueryIntersectionResident] at hI
    simp only [QueryOcclusionResident] at hO
    by_cases hz : residentCount = 0 ∨ maxRays = 0
    · rw [if_pos hz] at hI hO
      injection hI with hI1
      injection hO with hO1
      injection hI1 with hI2 hI3
      injection hO1 with hO2 hO3
      subst hI2
      subst hO2
      exact ⟨rfl, rfl, rfl, rfl⟩
    · rw [if_neg hz] at hI hO
      injection hI with hI1
      injection hO with hO1
      injection hI1 with hI2 hI3
      injection hO1 with hO2 hO3
      subst hI2
      subst hO2
      exact ⟨Intersect_length a rays residentCount maxRays hitsI,
        Intersect_getD_untouched a rays residentCount maxRays i hitsI hi,
        Occluded_length a rays residentCount maxRays hitsO,
        Occluded_getD_untouched a rays residentCount maxRays i hitsO hi⟩

/-- Witness for `device_resident_count_is_clamped`: a resident count of 5
against `max_rays = 2` on a three-slot hits buffer leaves slot 2 untouched. -/
theorem device_resident_count_is_clamped_witness :
    processedRayCount 5 2 ≤ 2
    ∧ (Intersect ⟨[]⟩ [] 5 2 [some ⟨1, 1, 0, 0⟩, none, some ⟨2, 2, 3, 4⟩]).length
        = ([some ⟨1, 1, 0, 0⟩, none, some ⟨2, 2, 3, 4⟩] : List (Option Hit)).length
    ∧ (Intersect ⟨[]⟩ [] 5 2 [some ⟨1, 1, 0, 0⟩, none, some ⟨2, 2, 3, 4⟩]).getD 2 none
        = ([some ⟨1, 1, 0, 0⟩, none, some ⟨2, 2, 3, 4⟩] : List (Option Hit)).getD 2 none
    ∧ (Occluded ⟨[]⟩ [] 5 2 [true, false, true]).length
        = ([true, false, true] : List Bool).length
    ∧ (Occluded ⟨[]⟩ [] 5 2 [true, false, true]).getD 2 false
        = ([true, false, true] : List Bool).getD 2 false :=
  device_resident_count_is_clamped ⟨some ⟨[]⟩, 0, 0, 0⟩ [] 5 2 2
    [some ⟨1, 1, 0, 0⟩, none, some ⟨2, 2, 3, 4⟩] _ [true, false, true] _ ⟨false⟩ ⟨false⟩
    rfl rfl (by decide)

/-- Claim C4: with the same bound world and equivalent ray data, the
fixed-count variant with host count `n` and the device-resident-count variant
with a count buffer holding `n` and any `max_rays ≥ n` return identical
results: the same hit records (hence bit-for-bit equal shape and primitive
identifiers and exactly equal distances and parametric coordinates) and
identical occlusion flags. -/
theorem fixed_and_resident_variants_agree (s : IntersectorState) (rays : List Ray)
    (n maxRays : Nat) (hitsI : List (Option Hit)) (hitsO : List Bool)
    (h : n ≤ maxRays) :
    (QueryIntersectionFixed s rays n hitsI).1
        = QueryIntersectionResident s rays n maxRays hitsI
    ∧ (QueryOcclusionFixed s rays n hitsO).1
        = QueryOcclusionResident s rays n maxRays hitsO := by
  constructor
  · simp only [QueryIntersectionFixed]
    cases ha : s.accel with
    | none => simp [QueryIntersectionResident, ha]
    | some a =>
      by_cases hn : n = 0
      · subst hn
        simp [QueryIntersectionResident, ha]
      · have hm : ¬ maxRays = 0 := by omega
        simp [QueryIntersectionResident, ha, hn, hm, Intersect, processedRayCount,
          Nat.min_self, Nat.min_eq_left h]
  · simp only [QueryOcclusionFixed]
    cases ha : s.accel with
    | none => simp [QueryOcclusionResident, ha]
    | some a =>
      by_cases hn : n = 0
      · subst hn
        simp [QueryOcclusionResident, ha]
      · have hm : ¬ maxRays = 0 := by omega
        simp [QueryOcclusionResident, ha, hn, hm, Occluded, processedRayCount,
          Nat.min_self, Nat.min_eq_left h]

/-- Witness for `fixed_and_resident_variants_agree`: one ray against a
one-primitive world, fixed count 1 versus resident count 1 with
`max_rays = 3`. -/
theorem fixed_and_resident_variants_agree_witness :
    (1 : Nat) ≤ 3
    ∧ ((QueryIntersectionFixed ⟨some ⟨[⟨3, 4, 1⟩]⟩, 0, 0, 0⟩ [⟨0, 1, 0, 2⟩] 1 [none]).1
          = QueryIntersectionResident ⟨some ⟨[⟨3, 4, 1⟩]⟩, 0, 0, 0⟩ [⟨0, 1, 0, 2⟩] 1 3 [none]
        ∧ (QueryOcclusionFixed ⟨some ⟨[⟨3, 4, 1⟩]⟩, 0, 0, 0⟩ [⟨0, 1, 0, 2⟩] 1 [false]).1
          = QueryOcclusionResident ⟨some ⟨[⟨3, 4, 1⟩]⟩, 0, 0, 0⟩ [⟨0, 1, 0, 2⟩] 1 3 [false]) :=
  ⟨by decide,
    fixed_and_resident_variants_agree ⟨some ⟨[⟨3, 4, 1⟩]⟩, 0, 0, 0⟩ [⟨0, 1, 0, 2⟩] 1 3
      [none] [false] (by decide)⟩

/-- Claim C9: for a world containing a shape kind the concrete backend does
not support, `IsCompatible` returns `false` — and, being a total function that
ignores the lifecycle state, it never fails and is safe to call in every
state, before or after `SetWorld`, returning the same verdict. -/
theorem isCompatible_false_on_unsupported_shape_kinds (supported : ShapeKind → Bool)
    (s s2 : IntersectorState) (w : World) (k : ShapeKind)
    (hmem : k ∈ w.shapeKinds) (hk : supported k = false) :
    (IsCompatible supported s w).1 = false
    ∧ (IsCompatible supported s w).1 = (IsCompatible supported s2 w).1 := by
  refine ⟨?_, rfl⟩
  show IsCompatibleImpl supported w = false
  rw [IsCompatibleImpl]
  cases hall : w.shapeKinds.all supported with
  | false => rfl
  | true => exact absurd (List.all_eq_true.mp hall k hmem) (by simp [hk])

/-- Claim C5: for every built world and every ray, the occlusion record the
backend writes (`occludedRay`) agrees with the intersection record it writes
(`closestHit`): a ray reported occluded has at least one intersection hit at
distance at most the ray's t-max, a ray reported not occluded has no
intersection hit within [t-min, t-max], and the intersection result carries a
hit exactly when the occlusion flag is set. -/
theorem occlusion_agrees_with_intersection (a : Accel) (r : Ray) :
    (occludedRay a r = true → ∃ h ∈ rayHits a r, h.dist ≤ r.tmax)
    ∧ (occludedRay a r = false → rayHits a r = [])
    ∧ (closestHit a r).isSome = occludedRay a r := by
  refine ⟨?_, ?_, closestHit_isSome_eq_occludedRay a r⟩
  · intro hocc
    have hne := (occludedRay_iff_rayHits_ne_nil a r).mp hocc
    cases hhits : rayHits a r with
    | nil => exact absurd hhits hne
    | cons h t =>
      have hmem : h ∈ rayHits a r := by
        rw [hhits]
        exact List.mem_cons_self h t
      exact ⟨h, List.mem_cons_self h t, (rayHits_dist_range a r h hmem).2⟩
  · intro hocc
    by_contra hne
    have := (occludedRay_iff_rayHits_ne_nil a r).mpr hne
    rw [hocc] at this
    exact Bool.noConfusion this

/-- Witness for `occlusion_agrees_with_intersection`: a ray from the origin
with direction 1 and interval [0, 2] is occluded by the primitive at position
1, so it has an intersection hit at distance at most 2. -/
theorem occlusion_agrees_with_intersection_witness :
    ∃ h ∈ rayHits ⟨[⟨5, 6, 1⟩]⟩ ⟨0, 1, 0, 2⟩, h.dist ≤ (⟨0, 1, 0, 2⟩ : Ray).tmax :=
  (occlusion_agrees_with_intersection ⟨[⟨5, 6, 1⟩]⟩ ⟨0, 1, 0, 2⟩).1 (by decide)

/-- Claim C6: in the mock device trace, an operation whose `wait_event` is the
completion event of operation `aId` is dispatched no earlier than the signal
time recorded for `aId`: device work for the waiting call never starts before
the waited-on event has signaled. -/
theorem wait_event_orders_device_work (pre post : List DeviceOp) (b : DeviceOp)
    (aId : Nat) (hb : b.waitOn = some aId) :
    signalTimeOf (runOps [] pre) aId ≤ dispatchTimeFor (runOps [] pre) b
    ∧ runOps [] (pre ++ b :: post)
        = runOps (runOps [] pre
            ++ [⟨b.opid, b.queue, dispatchTimeFor (runOps [] pre) b,
                dispatchTimeFor (runOps [] pre) b + b.cost⟩]) post := by
  constructor
  · simp only [dispatchTimeFor, hb, waitReadyTime]
    exact le_max_right _ _
  · rw [runOps_append]
    rfl

/-- Witness for `wait_event_orders_device_work`: operation 1 runs for 5 time
units on queue 0; operation 2 on queue 1 waits on operation 1's completion
event and is dispatched at its signal time. -/
theorem wait_event_orders_device_work_witness :
    signalTimeOf (runOps [] [⟨1, 0, none, 5⟩]) 1
        ≤ dispatchTimeFor (runOps [] [⟨1, 0, none, 5⟩]) ⟨2, 1, some 1, 3⟩
    ∧ runOps [] ([⟨1, 0, none, 5⟩] ++ ⟨2, 1, some 1, 3⟩ :: [])
        = runOps (runOps [] [⟨1, 0, none, 5⟩]
            ++ [⟨2, 1, dispatchTimeFor (runOps [] [⟨1, 0, none, 5⟩]) ⟨2, 1, some 1, 3⟩,
                dispatchTimeFor (runOps [] [⟨1, 0, none, 5⟩]) ⟨2, 1, some 1, 3⟩ + 3⟩]) [] :=
  wait_event_orders_device_work [⟨1, 0, none, 5⟩] [] ⟨2, 1, some 1, 3⟩ 1 rfl

/-- Witness for `isCompatible_false_on_unsupported_shape_kinds`: a
triangle-mesh-only backend is incompatible with a world containing a curve,
in any lifecycle state. -/
theorem isCompatible_false_on_unsupported_shape_kinds_witness :
    ShapeKind.curve ∈ (⟨[ShapeKind.curve], []⟩ : World).shapeKinds
    ∧ (fun k => match k with | ShapeKind.mesh => true | _ => false) ShapeKind.curve = false
    ∧ (IsCompatible (fun k => match k with | ShapeKind.mesh => true | _ => false)
        ⟨none, 0, 0, 0⟩ ⟨[ShapeKind.curve], []⟩).1 = false
    ∧ (IsCompatible (fun k => match k with | ShapeKind.mesh => true | _ => false)
        ⟨none, 0, 0, 0⟩ ⟨[ShapeKind.curve], []⟩).1
      = (IsCompatible (fun k => match k with | ShapeKind.mesh => true | _ => false)
        ⟨some ⟨[]⟩, 7, 8, 9⟩ ⟨[ShapeKind.curve], []⟩).1 :=
  ⟨by decide, by decide,
    isCompatible_false_on_unsupported_shape_kinds
      (fun k => match k with | ShapeKind.mesh => true | _ => false)
      ⟨none, 0, 0, 0⟩ ⟨some ⟨[]⟩, 7, 8, 9⟩ ⟨[ShapeKind.curve], []⟩ ShapeKind.curve
      (by decide) (by decide)⟩

/-- Claim C1, code-bug evidence: the default bodies of the specialized
reduction virtuals `Occluded2dSumLinear2` (header lines 165-169) and
`Occluded2dCellString` (header lines 176-186) are empty, so on a backend that
does not override them the call completes as a silent no-op — the hits buffer
is returned unwritten and no `UnsupportedOperation` (indeed no error at all)
is reported — contradicting the contract of spec sections 4.3 and 7.
Evaluated here at concrete hits-buffer contents. -/
theorem occluded2d_defaults_silently_succeed :
    Occluded2dSumLinear2Default [0, 0] = ⟨[0, 0], none, none⟩
    ∧ (Occluded2dSumLinear2Default [0, 0]).err ≠ some RRError.unsupportedOperation
    ∧ Occluded2dCellStringDefault [7] = ⟨[7], none, none⟩
    ∧ (Occluded2dCellStringDefault [7]).err ≠ some RRError.unsupportedOperation :=
  ⟨rfl, by decide, rfl, by decide⟩

/-- Claim C3: with a world bound, a query whose resident count is 0, or whose
`max_rays` is 0, or a fixed-count query with `num_rays = 0`, is not an error:
it returns an already-signaled completion event and leaves the hits buffer
exactly unchanged, for both intersection and occlusion variants. -/
theorem zero_ray_batches_are_signaled_noops (a : Accel) (c1 c2 c3 : Nat)
    (rays : List Ray) (residentCount maxRays : Nat)
    (hitsI : List (Option Hit)) (hitsO : List Bool) :
    QueryIntersectionResident ⟨some a, c1, c2, c3⟩ rays 0 maxRays hitsI
        = Except.ok (hitsI, ⟨true⟩)
    ∧ QueryIntersectionResident ⟨some a, c1, c2, c3⟩ rays residentCount 0 hitsI
        = Except.ok (hitsI, ⟨true⟩)
    ∧ QueryOcclusionResident ⟨some a, c1, c2, c3⟩ rays 0 maxRays hitsO
        = Except.ok (hitsO, ⟨true⟩)
    ∧ QueryOcclusionResident ⟨some a, c1, c2, c3⟩ rays residentCount 0 hitsO
        = Except.ok (hitsO, ⟨true⟩)
    ∧ (QueryIntersectionFixed ⟨some a, c1, c2, c3⟩ rays 0 hitsI).1
        = Except.ok (hitsI, ⟨true⟩)
    ∧ (QueryOcclusionFixed ⟨some a, c1, c2, c3⟩ rays 0 hitsO).1
        = Except.ok (hitsO, ⟨true⟩) := by
  refine ⟨?_, ?_, ?_, ?_, ?_, ?_⟩ <;>
    simp [QueryIntersectionResident, QueryOcclusionResident,
      QueryIntersectionFixed, QueryOcclusionFixed]

/-- Claim C7: `SetWorld` binds exactly one world at a time — it atomically
replaces any previously bound world (last `SetWorld` wins) — and completes
the acceleration-structure build before returning, so a query issued after
`SetWorld` returns observes the fully built structure and is never rejected
as `NotPreprocessed`. -/
theorem setWorld_last_wins_and_builds_before_return (s : IntersectorState)
    (w w1 w2 : World) (rays : List Ray) (residentCount maxRays : Nat)
    (hits : List (Option Hit)) :
    (SetWorld s w).accel = some (buildAccel w)
    ∧ SetWorld (SetWorld s w1) w2 = SetWorld s w2
    ∧ QueryIntersectionResident (SetWorld s w) rays residentCount maxRays hits
        ≠ Except.error RRError.notPreprocessed := by
  refine ⟨rfl, rfl, ?_⟩
  by_cases h : residentCount = 0 ∨ maxRays = 0 <;>
    simp [QueryIntersectionResident, SetWorld, h]

/-- Witness for `setWorld_last_wins_and_builds_before_return`: binding a
one-primitive world after a previous binding leaves exactly that world bound,
fully built, and a subsequent one-ray query is not rejected. -/
theorem setWorld_last_wins_and_builds_before_return_witness :
    (SetWorld ⟨none, 0, 0, 0⟩ ⟨[], [⟨1, 1, 4⟩]⟩).accel = some (buildAccel ⟨[], [⟨1, 1, 4⟩]⟩)
    ∧ SetWorld (SetWorld ⟨none, 0, 0, 0⟩ ⟨[], []⟩) ⟨[], [⟨1, 1, 4⟩]⟩
        = SetWorld ⟨none, 0, 0, 0⟩ ⟨[], [⟨1, 1, 4⟩]⟩
    ∧ QueryIntersectionResident (SetWorld ⟨none, 0, 0, 0⟩ ⟨[], [⟨1, 1, 4⟩]⟩)
          [⟨0, 1, 0, 9⟩] 1 1 [none]
        ≠ Except.error RRError.notPreprocessed :=
  setWorld_last_wins_and_builds_before_return ⟨none, 0, 0, 0⟩ ⟨[], [⟨1, 1, 4⟩]⟩
    ⟨[], []⟩ ⟨[], [⟨1, 1, 4⟩]⟩ [⟨0, 1, 0, 9⟩] 1 1 [none]

/-- Claim C8: `IsCompatible` is deterministic and idempotent: it has no side
effect on the intersector state (and takes the world by constant reference),
and a repeated call returns the same verdict. -/
theorem isCompatible_deterministic_idempotent (supported : ShapeKind → Bool)
    (s : IntersectorState) (w : World) :
    (IsCompatible supported s w).2 = s
    ∧ (IsCompatible supported s w).1
        = (IsCompatible supported (IsCompatible supported s w).2 w).1 :=
  ⟨rfl, rfl⟩

/-- Claim C10: the fixed-count public overloads stage the host count into the
instance's exclusively owned scratch counter buffer (`m_counter` for
intersection, `m_counter2` for occlusion) and then invoke the same
device-resident-count entry point with that staged count and
`max_rays = num_rays`, so the resident-count convention is the single backend
execution path for both conventions. -/
theorem fixed_count_routes_through_resident_entry (s : IntersectorState)
    (rays : List Ray) (n : Nat) (hitsI : List (Option Hit)) (hitsO : List Bool) :
    (QueryIntersectionFixed s rays n hitsI).2.m_counter = n
    ∧ (QueryIntersectionFixed s rays n hitsI).1
        = QueryIntersectionResident ((QueryIntersectionFixed s rays n hitsI).2) rays n n hitsI
    ∧ (QueryOcclusionFixed s rays n hitsO).2.m_counter2 = n
    ∧ (QueryOcclusionFixed s rays n hitsO).1
        = QueryOcclusionResident ((QueryOcclusionFixed s rays n hitsO).2) rays n n hitsO :=
  ⟨rfl, rfl, rfl, rfl⟩

end RadeonRays
